import Mathlib

/-!
Verification of the ClawCondos goal/task lifecycle core against its
natural-language specification.

The development shallowly embeds the relevant JavaScript source:

* the Retry/Failure Supervisor logic of the `agent_end` hook, as extracted
  into `simulateAgentEnd` in the error-recovery test file;
* the task-reset part of `sessions.killForGoal` (whose implementation file
  `session-lifecycle.js` is not included in the sources; it is modelled
  from the specification and its test);
* the PM RPC handlers of `clawcondos/condo-management/lib/pm-handlers.js`.

JavaScript conventions are embedded explicitly: a possibly-absent field is
an `Option`; `x || d` on a number defaulting is `Option.getD` (the sources
only use it where `0` and the default agree or `0` is the default);
`x ?? d` is `Option.getD`; a falsy-string test `!s` holds exactly when the
field is absent or the empty string.  Mutation of the in-memory document is
state passing; the store-observable document changes only when `store.save`
succeeds.  Timestamps (`Date.now()`) are passed in as an explicit `now`.
-/

/-! ## Retry/Failure Supervisor (agent_end hook, mirrored by `simulateAgentEnd`) -/

/-- A broadcast event pushed by the supervisor (`goal.task_retry` /
`goal.task_failed`).  The retry event carries a `retryCount` field, the
failure event does not, hence the `Option`. -/
structure SEvent where
  event : String
  goalId : String
  taskId : String
  retryCount : Option Nat
deriving Repr, DecidableEq

/-- The fields of a task record read or written by the supervisor.
`retryCount` is `Option Nat` because the JS field may be absent
(`task.retryCount || 0` reads an absent field as 0). -/
structure STask where
  id : String
  status : String
  sessionKey : Option String
  retryCount : Option Nat
  lastError : Option String
  updatedAtMs : Nat
deriving Repr, DecidableEq

/-- The fields of a goal record read by the supervisor:
`goal.maxRetries ?? 1` defaults an absent policy to 1. -/
structure SGoal where
  id : String
  maxRetries : Option Nat
deriving Repr, DecidableEq

/-- Result of one supervisor step: the returned tag, the task after the
in-place mutation, and the events appended to `broadcastEvents`. -/
structure AEndRes where
  result : String
  task : Option STask
  events : List SEvent
deriving Repr, DecidableEq

/-- Error message recorded when the event carried `success === false`. -/
def agentFailedMsg : String := "Agent failed while working on task"

/-- Error message recorded when the session ended without an explicit failure. -/
def agentEndedMsg : String := "Agent ended without completing task"

/-- Error message recorded when retries are exhausted. -/
def retriesExhaustedMsg : String := "Max retries exhausted — agent ended without completing task"

/-- Shallow embedding of `simulateAgentEnd(goal, task, eventSuccess, broadcastEvents)`
from the error-recovery test file, which mirrors the if/else chain of the
`agent_end` hook.  `eventSuccess : Option Bool` embeds
`success : boolean|undefined`; `eventSuccess === false` is `= some false`. -/
def simulateAgentEnd (goal : SGoal) (task : Option STask)
    (eventSuccess : Option Bool) (now : Nat) : AEndRes :=
  match task with
  | none => ⟨"completed", none, []⟩
  | some t =>
    if t.status = "done" then
      ⟨"completed", some t, []⟩
    else if t.status = "in-progress" then
      let retryCount := t.retryCount.getD 0
      let maxRetries := goal.maxRetries.getD 1
      if retryCount < maxRetries then
        let t' : STask :=
          { t with
            sessionKey := none
            status := "pending"
            retryCount := some (retryCount + 1)
            lastError := some (if eventSuccess = some false then agentFailedMsg else agentEndedMsg)
            updatedAtMs := now }
        ⟨"retried", some t', [⟨"goal.task_retry", goal.id, t.id, some (retryCount + 1)⟩]⟩
      else
        let t' : STask :=
          { t with
            status := "failed"
            lastError := some retriesExhaustedMsg
            updatedAtMs := now }
        ⟨"failed", some t', [⟨"goal.task_failed", goal.id, t.id, none⟩]⟩
    else
      ⟨"no-action", some t, []⟩

/-! ## `sessions.killForGoal` task reset (modelled from the spec) -/

/-- Task fields relevant to the kill-for-goal reset. -/
structure KTask where
  id : String
  status : String
  sessionKey : Option String
  retryCount : Option Nat
  updatedAtMs : Nat
deriving Repr, DecidableEq

/-- Modelled from the spec: the implementation of `sessions.killForGoal`
lives in `session-lifecycle.js`, which is not among the provided sources
(only its test is).  Per the spec, aborting a goal's sessions resets each
`in-progress` task to `pending` with `sessionKey = null` and does not
increment `retryCount` (the reset is an unblock-and-reassign, not an agent
failure); every other task of the goal is left untouched. -/
def killForGoalResetTask (now : Nat) (t : KTask) : KTask :=
  if t.status = "in-progress" then
    { t with status := "pending", sessionKey := none, updatedAtMs := now }
  else
    t

/-- Modelled from the spec: the per-goal reset applies the task reset to
every task of the goal, in place. -/
def killForGoalResetTasks (now : Nat) (tasks : List KTask) : List KTask :=
  tasks.map (killForGoalResetTask now)

/-! ## PM RPC handlers (`clawcondos/condo-management/lib/pm-handlers.js`)

The handlers close over a JSON store; the store-observable document is the
explicit state.  Collaborators imported from other modules
(`getPmSession`, `getPmSkillContext`, `parseTasksFromPlan`, `detectPlan`)
and the store primitives `load`/`save` may throw: they are embedded as
`Except`-valued parameters.  Every collaborator call in the source sits
inside the handler's `try`, whose `catch` calls
`respond(false, null, err.message)`: a collaborator error is therefore
routed to a `respondedErr` outcome.  The optional `logger` is embedded as
absent (its guarded calls drop out).  Response payloads (enriched message,
role tables, history slices) do not affect the store or the ok/error
outcome and are not modelled. -/

/-- A PM chat history entry (`{ role, content, timestamp }`). -/
structure Msg where
  role : String
  content : String
  timestamp : Nat
deriving Repr, DecidableEq

/-- A task object as created by `pm.createTasksFromPlan` /
`pm.regenerateTasks`.  `retryCount` is `Option Nat` because the creation
literal has no `retryCount` property; the supervisor reads an absent field
as 0. -/
structure PTask where
  id : String
  text : String
  description : String
  status : String
  done : Bool
  priority : Option String
  sessionKey : Option String
  assignedAgent : Option String
  model : Option String
  dependsOn : List String
  summary : String
  estimatedTime : Option String
  createdAtMs : Nat
  updatedAtMs : Nat
  retryCount : Option Nat
deriving Repr, DecidableEq

/-- The `goal.plan` sub-object (only the fields the PM handlers touch). -/
structure PlanInfo where
  content : Option String
  status : Option String
  approvedAtMs : Option Nat
  updatedAtMs : Option Nat
deriving Repr, DecidableEq

/-- A goal object (the fields the PM handlers read or write).
`pmChatHistory = none` embeds an absent / non-array field. -/
structure PGoal where
  id : String
  condoId : String
  title : String
  completed : Bool
  tasks : List PTask
  pmChatHistory : Option (List Msg)
  plan : Option PlanInfo
  pmPlanContent : Option String
  updatedAtMs : Nat
deriving Repr, DecidableEq

/-- A condo object (the fields the PM handlers read or write). -/
structure Condo where
  id : String
  name : String
  pmSession : Option String
  updatedAtMs : Nat
deriving Repr, DecidableEq

/-- The store document: `{ condos, goals, sessionIndex }`.
`sessionIndex` is modelled as its list of keys (the PM handlers only
delete entries from it). -/
structure Doc where
  condos : List Condo
  goals : List PGoal
  sessionIndex : List String
deriving Repr, DecidableEq

/-- One task row parsed out of a plan by `parseTasksFromPlan`. -/
structure ParsedTask where
  text : String
  description : Option String
  agent : Option String
  time : Option String
deriving Repr, DecidableEq

/-- The result shape of `parseTasksFromPlan`: `{ tasks, hasPlan }`. -/
structure ParseRes where
  tasks : List ParsedTask
  hasPlan : Bool
deriving Repr, DecidableEq

/-- The collaborators a PM handler calls, each fallible where the JS
function can throw.  `loadErr`/`saveErr` make `store.load`/`store.save`
throw when set; `newId` is the store's id supply, indexed by how many ids
the call has drawn. -/
structure Collabs where
  loadErr : Option String
  saveErr : Option String
  pmSession : Doc → Option String → Except String String
  skillContext : Except String Unit
  parsePlan : String → Except String ParseRes
  detect : String → Except String Bool
  newId : Nat → String

/-- How a handler invocation ended: it called `respond(true, …)`, called
`respond(false, null, msg)`, or let an exception escape.  The embedding
routes every collaborator error raised inside a handler's `try` to the
`catch`, which responds with the error message; `threw` would only arise
from a collaborator call outside any `try`. -/
inductive HOut where
  | respondedOk
  | respondedErr (msg : String)
  | threw (msg : String)
deriving Repr, DecidableEq

/-- `true` iff the handler delivered its outcome through `respond`. -/
def HOut.isResponse : HOut → Bool
  | .threw _ => false
  | _ => true

/-- Result of one handler invocation: outcome, store-observable document,
and the number of successful `store.save` calls. -/
structure HRes where
  out : HOut
  doc : Doc
  saves : Nat
deriving Repr, DecidableEq

/-- JS falsiness of an optional string: absent or `""`. -/
def jsFalsy : Option String → Bool
  | none => true
  | some s => s == ""

/-- `v || null` on an optional string: `""` collapses to null. -/
def jsOrNull : Option String → Option String
  | none => none
  | some s => if s == "" then none else some s

/-- ASCII whitespace for the JS `String.prototype.trim` embedding. -/
def isJsWs (c : Char) : Bool :=
  c == ' ' || c == '\t' || c == '\n' || c == '\r'

/-- JS `s.trim()`: strip whitespace from both ends (kernel-computable). -/
def jsTrim (s : String) : String :=
  String.mk (((s.data.dropWhile isJsWs).reverse.dropWhile isJsWs).reverse)

/-- `DEFAULT_HISTORY_LIMIT` from pm-handlers.js. -/
def DEFAULT_HISTORY_LIMIT : Nat := 100

/-- `getGoalPmHistory`: the goal's history, an absent field read as `[]`. -/
def getHist (g : PGoal) : List Msg :=
  g.pmChatHistory.getD []

/-- The `while (history.length > maxHistory) history.shift()` loop of
`addToHistory`. -/
def trimFront : List Msg → Nat → List Msg
  | [], _ => []
  | a :: as, m => if m < (a :: as).length then trimFront as m else a :: as

/-- `addToHistory(goal, role, content, maxHistory)`: push the entry, then
drop from the front while over the limit. -/
def addToHistory (g : PGoal) (role content : String) (now : Nat) (maxHistory : Nat) : PGoal :=
  { g with pmChatHistory := some (trimFront (getHist g ++ [⟨role, content, now⟩]) maxHistory) }

/-- Replace the first goal with the given id (JS `find` + in-place
mutation touches only the first match). -/
def replaceFirstGoal : List PGoal → String → (PGoal → PGoal) → List PGoal
  | [], _, _ => []
  | g :: gs, gid, f => if g.id = gid then f g :: gs else g :: replaceFirstGoal gs gid f

/-- Apply an in-place goal mutation to the document. -/
def updateGoal (d : Doc) (gid : String) (f : PGoal → PGoal) : Doc :=
  { d with goals := replaceFirstGoal d.goals gid f }

/-- Replace the first condo with the given id. -/
def replaceFirstCondo : List Condo → String → (Condo → Condo) → List Condo
  | [], _, _ => []
  | co :: cos, cid, f => if co.id = cid then f co :: cos else co :: replaceFirstCondo cos cid f

/-- Apply an in-place condo mutation to the document. -/
def updateCondo (d : Doc) (cid : String) (f : Condo → Condo) : Doc :=
  { d with condos := replaceFirstCondo d.condos cid f }

/-- `goal.plan?.content` as a truthy value (`""` and absent are falsy). -/
def planContentOf (g : PGoal) : Option String :=
  match g.plan with
  | some pl =>
    match pl.content with
    | some s => if s == "" then none else some s
    | none => none
  | none => none

/-- The history fallback of the plan-content resolution: guarded by
`goal.pmChatHistory?.length`, then the last `assistant` message; a falsy
result fails the later `if (!contentToParse)` check, so it collapses to
`none` here. -/
def histFallback (g : PGoal) : Option String :=
  match g.pmChatHistory with
  | none => none
  | some h =>
    if h.length == 0 then none
    else
      match h.reverse.find? (fun m => m.role == "assistant") with
      | some m => if m.content == "" then none else some m.content
      | none => none

/-- The shared `contentToParse` resolution of `pm.createTasksFromPlan` and
`pm.regenerateTasks`: the `planContent` param if truthy, else
`goal.plan?.content` if truthy, else the last assistant chat message;
`none` means the handler errors out. -/
def resolvePlanContent (planContent : Option String) (g : PGoal) : Option String :=
  match planContent with
  | some s =>
    if s == "" then
      match planContentOf g with
      | some c => some c
      | none => histFallback g
    else some s
  | none =>
    match planContentOf g with
    | some c => some c
    | none => histFallback g

/-- The task literal built for each parsed plan row (identical in
`pm.createTasksFromPlan` and `pm.regenerateTasks`). -/
def mkPlanTask (idSupply : Nat → String) (idx : Nat) (now : Nat) (pt : ParsedTask) : PTask :=
  { id := idSupply idx
    text := pt.text
    description := pt.description.getD ""
    status := "pending"
    done := false
    priority := none
    sessionKey := none
    assignedAgent := jsOrNull pt.agent
    model := none
    dependsOn := []
    summary := ""
    estimatedTime := jsOrNull pt.time
    createdAtMs := now
    updatedAtMs := now
    retryCount := none }

/-- `goal.plan?.status === 'awaiting_approval' || goal.plan?.status === 'draft'`. -/
def planStatusAwaiting (g : PGoal) : Bool :=
  match g.plan with
  | some pl => pl.status == some "awaiting_approval" || pl.status == some "draft"
  | none => false

/-- Mark the plan approved (`status/approvedAtMs/updatedAtMs`). -/
def approvePlan (pl : Option PlanInfo) (now : Nat) : Option PlanInfo :=
  pl.map fun p => { p with status := some "approved", approvedAtMs := some now, updatedAtMs := some now }

/-- The document after `pm.regenerateTasks` has removed all existing tasks
of the goal: the goal's `tasks` become `[]` and every sessionIndex entry
bound to one of the removed tasks' truthy session keys is deleted. -/
def clearGoalTasks (d : Doc) (gid : String) : Doc :=
  match d.goals.find? (fun g => g.id == gid) with
  | some goal =>
    { updateGoal d gid (fun g => { g with tasks := [] }) with
      sessionIndex := d.sessionIndex.filter
        (fun k => !(goal.tasks.any (fun t => t.sessionKey == some k && k != ""))) }
  | none => d

/-- Params of `pm.chat`. -/
structure ChatParams where
  condoId : Option String
  goalId : Option String
  message : Option String
  pmSession : Option String
deriving Repr, DecidableEq

/-- Params carrying only a `condoId` (`pm.getConfig`, `pm.getAgent`). -/
structure CondoParams where
  condoId : Option String
deriving Repr, DecidableEq

/-- Params of `pm.setConfig`: the outer `Option` on `pmSession` is property
presence (`undefined` skips the write), the inner one is `null`. -/
structure SetConfigParams where
  condoId : Option String
  pmSession : Option (Option String)
deriving Repr, DecidableEq

/-- Params carrying only a `goalId` (`pm.getHistory`, `pm.clearHistory`);
`pm.getHistory`'s `limit` only shapes the response payload and is elided. -/
structure GoalIdParams where
  goalId : Option String
deriving Repr, DecidableEq

/-- Params of `pm.saveResponse`. -/
structure SaveResponseParams where
  goalId : Option String
  content : Option String
deriving Repr, DecidableEq

/-- Params of `pm.createTasksFromPlan` / `pm.regenerateTasks`. -/
structure PlanParams where
  goalId : Option String
  planContent : Option String
deriving Repr, DecidableEq

/-- Params of `pm.detectPlan`. -/
structure ContentParams where
  content : Option String
deriving Repr, DecidableEq

/-- `pm.chat`: validate params, record the user message in the goal's PM
history and save, then resolve the PM session and build the enriched
message (payload elided).  `message` is invalid when absent or blank after
trimming. -/
def pmChat (c : Collabs) (now : Nat) (p : Option ChatParams) (d : Doc) : HRes :=
  let pp := p.getD ⟨none, none, none, none⟩
  if jsFalsy pp.condoId then ⟨.respondedErr "condoId is required", d, 0⟩
  else if jsFalsy pp.goalId then ⟨.respondedErr "goalId is required", d, 0⟩
  else if jsTrim (pp.message.getD "") == "" then ⟨.respondedErr "message is required", d, 0⟩
  else
    let cid := pp.condoId.getD ""
    let gid := pp.goalId.getD ""
    match c.loadErr with
    | some e => ⟨.respondedErr e, d, 0⟩
    | none =>
      match d.condos.find? (fun co => co.id == cid) with
      | none => ⟨.respondedErr ("Condo " ++ cid ++ " not found"), d, 0⟩
      | some _ =>
        match d.goals.find? (fun g => g.id == gid) with
        | none => ⟨.respondedErr ("Goal " ++ gid ++ " not found"), d, 0⟩
        | some goal =>
          if goal.condoId ≠ cid then
            ⟨.respondedErr ("Goal " ++ gid ++ " does not belong to condo " ++ cid), d, 0⟩
          else
            let userMessage := jsTrim (pp.message.getD "")
            let d₁ := updateGoal d gid
              (fun g => addToHistory g "user" userMessage now DEFAULT_HISTORY_LIMIT)
            match c.saveErr with
            | some e => ⟨.respondedErr e, d, 0⟩
            | none =>
              match
                (match pp.pmSession with
                 | some s => if s == "" then c.pmSession d₁ (some cid) else .ok s
                 | none => c.pmSession d₁ (some cid)) with
              | .error e => ⟨.respondedErr e, d₁, 1⟩
              | .ok _ =>
                match c.skillContext with
                | .error e => ⟨.respondedErr e, d₁, 1⟩
                | .ok _ => ⟨.respondedOk, d₁, 1⟩

/-- `pm.getConfig`: read-only; resolves the PM session for the condo. -/
def pmGetConfig (c : Collabs) (p : Option CondoParams) (d : Doc) : HRes :=
  let pp := p.getD ⟨none⟩
  if jsFalsy pp.condoId then ⟨.respondedErr "condoId is required", d, 0⟩
  else
    let cid := pp.condoId.getD ""
    match c.loadErr with
    | some e => ⟨.respondedErr e, d, 0⟩
    | none =>
      match d.condos.find? (fun co => co.id == cid) with
      | none => ⟨.respondedErr ("Condo " ++ cid ++ " not found"), d, 0⟩
      | some _ =>
        match c.pmSession d (some cid) with
        | .error e => ⟨.respondedErr e, d, 0⟩
        | .ok _ => ⟨.respondedOk, d, 0⟩

/-- `pm.setConfig`: write the condo's `pmSession` (skipped when the param
property is absent; `'' || null` collapses to null), stamp `updatedAtMs`,
save, then resolve the PM session for the response. -/
def pmSetConfig (c : Collabs) (now : Nat) (p : Option SetConfigParams) (d : Doc) : HRes :=
  let pp := p.getD ⟨none, none⟩
  if jsFalsy pp.condoId then ⟨.respondedErr "condoId is required", d, 0⟩
  else
    let cid := pp.condoId.getD ""
    match c.loadErr with
    | some e => ⟨.respondedErr e, d, 0⟩
    | none =>
      match d.condos.find? (fun co => co.id == cid) with
      | none => ⟨.respondedErr ("Condo " ++ cid ++ " not found"), d, 0⟩
      | some _ =>
        let d₁ := updateCondo d cid (fun co =>
          match pp.pmSession with
          | some v => { co with pmSession := jsOrNull v, updatedAtMs := now }
          | none => { co with updatedAtMs := now })
        match c.saveErr with
        | some e => ⟨.respondedErr e, d, 0⟩
        | none =>
          match c.pmSession d₁ (some cid) with
          | .error e => ⟨.respondedErr e, d₁, 1⟩
          | .ok _ => ⟨.respondedOk, d₁, 1⟩

/-- `pm.getAgent`: read-only; resolves the PM session (possibly with no
condoId) and extracts the agent id for the payload (elided). -/
def pmGetAgent (c : Collabs) (p : Option CondoParams) (d : Doc) : HRes :=
  let pp := p.getD ⟨none⟩
  match c.pmSession d pp.condoId with
  | .error e => ⟨.respondedErr e, d, 0⟩
  | .ok _ => ⟨.respondedOk, d, 0⟩

/-- `pm.getHistory`: read-only; `getGoalPmHistory` may initialize the field
in memory but nothing is saved, so the store document is unchanged. -/
def pmGetHistory (c : Collabs) (p : Option GoalIdParams) (d : Doc) : HRes :=
  let pp := p.getD ⟨none⟩
  if jsFalsy pp.goalId then ⟨.respondedErr "goalId is required", d, 0⟩
  else
    let gid := pp.goalId.getD ""
    match c.loadErr with
    | some e => ⟨.respondedErr e, d, 0⟩
    | none =>
      match d.goals.find? (fun g => g.id == gid) with
      | none => ⟨.respondedErr ("Goal " ++ gid ++ " not found"), d, 0⟩
      | some goal =>
        match c.pmSession d (some goal.condoId) with
        | .error e => ⟨.respondedErr e, d, 0⟩
        | .ok _ => ⟨.respondedOk, d, 0⟩

/-- `pm.clearHistory`: empty the goal's history, stamp `updatedAtMs`, save. -/
def pmClearHistory (c : Collabs) (now : Nat) (p : Option GoalIdParams) (d : Doc) : HRes :=
  let pp := p.getD ⟨none⟩
  if jsFalsy pp.goalId then ⟨.respondedErr "goalId is required", d, 0⟩
  else
    let gid := pp.goalId.getD ""
    match c.loadErr with
    | some e => ⟨.respondedErr e, d, 0⟩
    | none =>
      match d.goals.find? (fun g => g.id == gid) with
      | none => ⟨.respondedErr ("Goal " ++ gid ++ " not found"), d, 0⟩
      | some _ =>
        let d₁ := updateGoal d gid (fun g => { g with pmChatHistory := some [], updatedAtMs := now })
        match c.saveErr with
        | some e => ⟨.respondedErr e, d, 0⟩
        | none => ⟨.respondedOk, d₁, 1⟩

/-- `pm.saveResponse`: append the assistant message (trimmed) to the goal's
history, stamp `updatedAtMs`, save, then run `detectPlan` on the raw
content for the payload. -/
def pmSaveResponse (c : Collabs) (now : Nat) (p : Option SaveResponseParams) (d : Doc) : HRes :=
  let pp := p.getD ⟨none, none⟩
  if jsFalsy pp.goalId then ⟨.respondedErr "goalId is required", d, 0⟩
  else if jsFalsy pp.content then ⟨.respondedErr "content is required", d, 0⟩
  else
    let gid := pp.goalId.getD ""
    let content := pp.content.getD ""
    match c.loadErr with
    | some e => ⟨.respondedErr e, d, 0⟩
    | none =>
      match d.goals.find? (fun g => g.id == gid) with
      | none => ⟨.respondedErr ("Goal " ++ gid ++ " not found"), d, 0⟩
      | some _ =>
        let d₁ := updateGoal d gid (fun g =>
          { addToHistory g "assistant" (jsTrim content) now DEFAULT_HISTORY_LIMIT with
            updatedAtMs := now })
        match c.saveErr with
        | some e => ⟨.respondedErr e, d, 0⟩
        | none =>
          match c.detect content with
          | .error e => ⟨.respondedErr e, d₁, 1⟩
          | .ok _ => ⟨.respondedOk, d₁, 1⟩

/-- `pm.createTasksFromPlan`: resolve the plan content, parse it, append a
fresh task per parsed row, stamp the goal, store the plan content, approve
an awaiting/draft plan, save. -/
def pmCreateTasksFromPlan (c : Collabs) (now : Nat) (p : Option PlanParams) (d : Doc) : HRes :=
  let pp := p.getD ⟨none, none⟩
  if jsFalsy pp.goalId then ⟨.respondedErr "goalId is required", d, 0⟩
  else
    let gid := pp.goalId.getD ""
    match c.loadErr with
    | some e => ⟨.respondedErr e, d, 0⟩
    | none =>
      match d.goals.find? (fun g => g.id == gid) with
      | none => ⟨.respondedErr ("Goal " ++ gid ++ " not found"), d, 0⟩
      | some goal =>
        match resolvePlanContent pp.planContent goal with
        | none =>
          ⟨.respondedErr "No plan content provided and no plan found on goal or in PM chat history",
           d, 0⟩
        | some content =>
          match c.parsePlan content with
          | .error e => ⟨.respondedErr e, d, 0⟩
          | .ok pr =>
            if !pr.hasPlan && pr.tasks.isEmpty then
              ⟨.respondedErr "No plan or tasks detected in content", d, 0⟩
            else if pr.tasks.isEmpty then
              ⟨.respondedErr "Plan detected but could not extract any tasks", d, 0⟩
            else
              let newTasks := pr.tasks.enum.map (fun ip => mkPlanTask c.newId ip.1 now ip.2)
              let d₁ := updateGoal d gid (fun g =>
                { g with
                  tasks := g.tasks ++ newTasks
                  updatedAtMs := now
                  pmPlanContent := some content
                  plan := if planStatusAwaiting g then approvePlan g.plan now else g.plan })
              match c.saveErr with
              | some e => ⟨.respondedErr e, d, 0⟩
              | none => ⟨.respondedOk, d₁, 1⟩

/-- `pm.regenerateTasks`: remove all existing tasks (pruning their
sessionIndex entries), then resolve and parse the plan content and create
fresh tasks; on the no-content and no-tasks paths the document with the
tasks already removed is saved before the error response. -/
def pmRegenerateTasks (c : Collabs) (now : Nat) (p : Option PlanParams) (d : Doc) : HRes :=
  let pp := p.getD ⟨none, none⟩
  if jsFalsy pp.goalId then ⟨.respondedErr "goalId is required", d, 0⟩
  else
    let gid := pp.goalId.getD ""
    match c.loadErr with
    | some e => ⟨.respondedErr e, d, 0⟩
    | none =>
      match d.goals.find? (fun g => g.id == gid) with
      | none => ⟨.respondedErr ("Goal " ++ gid ++ " not found"), d, 0⟩
      | some goal =>
        let d₁ := clearGoalTasks d gid
        match resolvePlanContent pp.planContent goal with
        | none =>
          match c.saveErr with
          | some e => ⟨.respondedErr e, d, 0⟩
          | none => ⟨.respondedErr "No plan content found to regenerate tasks from", d₁, 1⟩
        | some content =>
          match c.parsePlan content with
          | .error e => ⟨.respondedErr e, d, 0⟩
          | .ok pr =>
            if pr.tasks.isEmpty then
              match c.saveErr with
              | some e => ⟨.respondedErr e, d, 0⟩
              | none => ⟨.respondedErr "Could not extract tasks from plan", d₁, 1⟩
            else
              let newTasks := pr.tasks.enum.map (fun ip => mkPlanTask c.newId ip.1 now ip.2)
              let d₂ := updateGoal d₁ gid (fun g =>
                { g with
                  tasks := g.tasks ++ newTasks
                  updatedAtMs := now
                  pmPlanContent := some content })
              match c.saveErr with
              | some e => ⟨.respondedErr e, d, 0⟩
              | none => ⟨.respondedOk, d₂, 1⟩

/-- `pm.detectPlan`: read-only utility over the plan detector and the task
extraction. -/
def pmDetectPlan (c : Collabs) (p : Option ContentParams) (d : Doc) : HRes :=
  let pp := p.getD ⟨none⟩
  if jsFalsy pp.content then ⟨.respondedErr "content is required", d, 0⟩
  else
    let content := pp.content.getD ""
    match c.detect content with
    | .error e => ⟨.respondedErr e, d, 0⟩
    | .ok _ =>
      match c.parsePlan content with
      | .error e => ⟨.respondedErr e, d, 0⟩
      | .ok _ => ⟨.respondedOk, d, 0⟩

/-- Collaborator behaviours that do not throw (used to scope the
validation-error claims to validation errors). -/
structure NoThrow (c : Collabs) : Prop where
  load : c.loadErr = none
  save : c.saveErr = none
  pmSession : ∀ d o e, c.pmSession d o ≠ Except.error e
  skill : ∀ e, c.skillContext ≠ Except.error e
  parse : ∀ s e, c.parsePlan s ≠ Except.error e
  detect : ∀ s e, c.detect s ≠ Except.error e

/-- Non-throwing collaborators for exercising the validation paths. -/
def c7Collabs : Collabs :=
  { loadErr := none
    saveErr := none
    pmSession := fun _ _ => .ok "agent:main:pm"
    skillContext := .ok ()
    parsePlan := fun _ => .ok ⟨[], false⟩
    detect := fun _ => .ok false
    newId := fun i => "task_" ++ toString i }

/-- A document with one goal holding one task and no plan or chat history. -/
def c7Doc : Doc :=
  { condos := [⟨"condo_1", "C", none, 0⟩]
    goals := [⟨"goal_1", "condo_1", "G", false,
               [⟨"t1", "do it", "", "pending", false, none, none, none, none, [], "", none, 0, 0,
                 none⟩],
               none, none, none, 0⟩]
    sessionIndex := [] }

/-- Collaborators whose parser extracts one task assigned to `dev`. -/
def c9Collabs : Collabs :=
  { loadErr := none
    saveErr := none
    pmSession := fun _ _ => .ok "agent:main:pm"
    skillContext := .ok ()
    parsePlan := fun _ => .ok ⟨[⟨"write code", none, some "dev", none⟩], true⟩
    detect := fun _ => .ok true
    newId := fun i => "task_" ++ toString i }

/-- A document with one goal that has a plan with content and no tasks. -/
def c9Doc : Doc :=
  { condos := []
    goals := [⟨"goal_1", "condo_1", "G", false, [], none, some ⟨some "PLAN", none, none, none⟩,
               none, 0⟩]
    sessionIndex := [] }

/-- Non-throwing collaborators for the history-bound witness. -/
def c10Collabs : Collabs :=
  { loadErr := none
    saveErr := none
    pmSession := fun _ _ => .ok "agent:main:pm"
    skillContext := .ok ()
    parsePlan := fun _ => .ok ⟨[], false⟩
    detect := fun _ => .ok false
    newId := fun i => "task_" ++ toString i }

/-- A document with one goal holding an empty chat history. -/
def c10Doc : Doc :=
  { condos := []
    goals := [⟨"goal_1", "condo_1", "G", false, [], some [], none, none, 0⟩]
    sessionIndex := [] }


/-! ### Helper lemmas for the supervisor transitions -/

theorem simulateAgentEnd_retry_eq (g : SGoal) (t : STask) (es : Option Bool) (now : Nat)
    (hst : t.status = "in-progress")
    (hrc : t.retryCount.getD 0 < g.maxRetries.getD 1) :
    simulateAgentEnd g (some t) es now =
      ⟨"retried",
       some { t with status := "pending", sessionKey := none,
                     retryCount := some (t.retryCount.getD 0 + 1),
                     lastError := some (if es = some false then agentFailedMsg else agentEndedMsg),
                     updatedAtMs := now },
       [⟨"goal.task_retry", g.id, t.id, some (t.retryCount.getD 0 + 1)⟩]⟩ := by
  simp only [simulateAgentEnd]
  rw [hst]
  rw [if_neg (by decide : ¬ ("in-progress" = "done"))]
  rw [if_pos (rfl : "in-progress" = "in-progress")]
  rw [if_pos hrc]

theorem simulateAgentEnd_failed_eq (g : SGoal) (t : STask) (es : Option Bool) (now : Nat)
    (hst : t.status = "in-progress")
    (hrc : ¬ t.retryCount.getD 0 < g.maxRetries.getD 1) :
    simulateAgentEnd g (some t) es now =
      ⟨"failed",
       some { t with status := "failed",
                     lastError := some retriesExhaustedMsg,
                     updatedAtMs := now },
       [⟨"goal.task_failed", g.id, t.id, none⟩]⟩ := by
  simp only [simulateAgentEnd]
  rw [hst]
  rw [if_neg (by decide : ¬ ("in-progress" = "done"))]
  rw [if_pos (rfl : "in-progress" = "in-progress")]
  rw [if_neg hrc]

/-- C1: an `agent-session-ended` event for an in-progress task with
`retryCount` strictly below the goal's effective `maxRetries` sets the task
to `pending`, clears `sessionKey`, increments the effective `retryCount` by
exactly 1, records a `lastError` that differs between explicit failure
(`success === false`) and a silent end, and emits exactly one retry event. -/
theorem supervisor_retry_under_max (g : SGoal) (t : STask) (es : Option Bool) (now : Nat)
    (hst : t.status = "in-progress")
    (hrc : t.retryCount.getD 0 < g.maxRetries.getD 1) :
    simulateAgentEnd g (some t) es now =
      ⟨"retried",
       some { t with status := "pending", sessionKey := none,
                     retryCount := some (t.retryCount.getD 0 + 1),
                     lastError := some (if es = some false then agentFailedMsg else agentEndedMsg),
                     updatedAtMs := now },
       [⟨"goal.task_retry", g.id, t.id, some (t.retryCount.getD 0 + 1)⟩]⟩
    ∧ agentFailedMsg ≠ agentEndedMsg := by
  exact ⟨simulateAgentEnd_retry_eq g t es now hst hrc, by decide⟩

theorem supervisor_retry_under_max_witness :
    (("in-progress" : String) = "in-progress" ∧ (0 : Nat) < 1)
    ∧ simulateAgentEnd ⟨"goal_1", some 2⟩
        (some ⟨"task_1", "in-progress", some "sk:1", some 0, none, 3⟩) none 9
      = ⟨"retried",
         some ⟨"task_1", "pending", none, some 1, some agentEndedMsg, 9⟩,
         [⟨"goal.task_retry", "goal_1", "task_1", some 1⟩]⟩ := by
  refine ⟨⟨rfl, by decide⟩, ?_⟩
  have h := supervisor_retry_under_max ⟨"goal_1", some 2⟩
    ⟨"task_1", "in-progress", some "sk:1", some 0, none, 3⟩ none 9 rfl (by decide)
  exact h.1

/-- C2: an `agent-session-ended` event for an in-progress task with
`retryCount` at or above the goal's effective `maxRetries` sets the task to
`failed`, records the retries-exhausted `lastError`, emits exactly one
failure event, and leaves `retryCount` unchanged. -/
theorem supervisor_fail_at_max (g : SGoal) (t : STask) (es : Option Bool) (now : Nat)
    (hst : t.status = "in-progress")
    (hrc : g.maxRetries.getD 1 ≤ t.retryCount.getD 0) :
    simulateAgentEnd g (some t) es now =
      ⟨"failed",
       some { t with status := "failed",
                     lastError := some retriesExhaustedMsg,
                     updatedAtMs := now },
       [⟨"goal.task_failed", g.id, t.id, none⟩]⟩
    ∧ (simulateAgentEnd g (some t) es now).task.map STask.retryCount = some t.retryCount := by
  have h := simulateAgentEnd_failed_eq g t es now hst (not_lt.mpr hrc)
  exact ⟨h, by rw [h]; rfl⟩

/-- C2 instance from the spec's scenario: `maxRetries = 1`, task already at
`retryCount = 1` — the second agent-end event yields `failed` with
`retryCount` still 1. -/
theorem supervisor_fail_at_max_witness :
    (("in-progress" : String) = "in-progress" ∧ (1 : Nat) ≤ 1)
    ∧ simulateAgentEnd ⟨"goal_1", some 1⟩
        (some ⟨"task_1", "in-progress", some "sk:2", some 1, none, 0⟩) (some true) 7
      = ⟨"failed",
         some ⟨"task_1", "failed", some "sk:2", some 1, some retriesExhaustedMsg, 7⟩,
         [⟨"goal.task_failed", "goal_1", "task_1", none⟩]⟩
    ∧ (simulateAgentEnd ⟨"goal_1", some 1⟩
        (some ⟨"task_1", "in-progress", some "sk:2", some 1, none, 0⟩) (some true) 7).task.map
          STask.retryCount = some (some 1) := by
  have h := supervisor_fail_at_max ⟨"goal_1", some 1⟩
    ⟨"task_1", "in-progress", some "sk:2", some 1, none, 0⟩ (some true) 7 rfl (by decide)
  exact ⟨⟨rfl, by decide⟩, h.1, h.2⟩

/-- C3 counterexample: after the supervisor processes an agent-session-ended
event for an in-progress task with exhausted retries, the task has status
`failed` yet keeps its non-null `sessionKey` — the failure branch of
`simulateAgentEnd` never clears `sessionKey`, contradicting the claim that
every `failed` task has `sessionKey = null` after processing. -/
theorem supervisor_failed_keeps_sessionKey_cex :
    (simulateAgentEnd ⟨"goal_1", some 1⟩
        (some ⟨"task_1", "in-progress", some "sk:2", some 1, none, 0⟩) (some true) 7).task.map
      STask.status = some "failed"
    ∧ (simulateAgentEnd ⟨"goal_1", some 1⟩
        (some ⟨"task_1", "in-progress", some "sk:2", some 1, none, 0⟩) (some true) 7).task.map
      STask.sessionKey = some (some "sk:2")
    ∧ (some "sk:2" : Option String) ≠ none := by decide

/-- C3 amended: the supervisor clears `sessionKey` on the retry transition
(the retried task is `pending` with `sessionKey = null`), but the failure
transition leaves `sessionKey` untouched, so a `failed` task keeps whatever
session key it had while in progress. -/
theorem supervisor_sessionKey_amended (g : SGoal) (t : STask) (es : Option Bool) (now : Nat)
    (hst : t.status = "in-progress") :
    if t.retryCount.getD 0 < g.maxRetries.getD 1 then
      (simulateAgentEnd g (some t) es now).task.map STask.sessionKey = some none
      ∧ (simulateAgentEnd g (some t) es now).task.map STask.status = some "pending"
    else
      (simulateAgentEnd g (some t) es now).task.map STask.sessionKey = some t.sessionKey
      ∧ (simulateAgentEnd g (some t) es now).task.map STask.status = some "failed" := by
  by_cases hrc : t.retryCount.getD 0 < g.maxRetries.getD 1
  · rw [if_pos hrc, simulateAgentEnd_retry_eq g t es now hst hrc]
    exact ⟨rfl, rfl⟩
  · rw [if_neg hrc, simulateAgentEnd_failed_eq g t es now hst hrc]
    exact ⟨rfl, rfl⟩

theorem supervisor_sessionKey_amended_witness :
    (("in-progress" : String) = "in-progress")
    ∧ (if (0 : Nat) < 1 then
        (simulateAgentEnd ⟨"g", none⟩
            (some ⟨"t", "in-progress", some "sk", none, none, 0⟩) none 4).task.map
          STask.sessionKey = some none
        ∧ (simulateAgentEnd ⟨"g", none⟩
            (some ⟨"t", "in-progress", some "sk", none, none, 0⟩) none 4).task.map
          STask.status = some "pending"
      else
        (simulateAgentEnd ⟨"g", none⟩
            (some ⟨"t", "in-progress", some "sk", none, none, 0⟩) none 4).task.map
          STask.sessionKey = some (some "sk")
        ∧ (simulateAgentEnd ⟨"g", none⟩
            (some ⟨"t", "in-progress", some "sk", none, none, 0⟩) none 4).task.map
          STask.status = some "failed") := by
  exact ⟨rfl, supervisor_sessionKey_amended ⟨"g", none⟩
    ⟨"t", "in-progress", some "sk", none, none, 0⟩ none 4 rfl⟩


/-- C4: when a goal does not set `maxRetries`, the effective limit is 1: a
first agent-end event on an in-progress task with effective retryCount 0
retries it (`pending`, `retryCount = 1`), and once the retried task is
in-progress again (re-assigned some session key `k`) a second agent-end
event marks it `failed`. -/
theorem supervisor_default_max_retries (g : SGoal) (t : STask) (es₁ es₂ : Option Bool)
    (k : String) (now₁ now₂ : Nat)
    (hmr : g.maxRetries = none)
    (hst : t.status = "in-progress")
    (hrc : t.retryCount.getD 0 = 0) :
    (simulateAgentEnd g (some t) es₁ now₁).result = "retried"
    ∧ (simulateAgentEnd g (some t) es₁ now₁).task.map STask.status = some "pending"
    ∧ (simulateAgentEnd g (some t) es₁ now₁).task.map STask.retryCount = some (some 1)
    ∧ ∀ t₁, (simulateAgentEnd g (some t) es₁ now₁).task = some t₁ →
        (simulateAgentEnd g
            (some { t₁ with status := "in-progress", sessionKey := some k }) es₂ now₂).result
          = "failed"
        ∧ (simulateAgentEnd g
            (some { t₁ with status := "in-progress", sessionKey := some k }) es₂ now₂).task.map
            STask.status = some "failed" := by
  have hlt : t.retryCount.getD 0 < g.maxRetries.getD 1 := by
    rw [hrc, hmr]; decide
  have h₁ := simulateAgentEnd_retry_eq g t es₁ now₁ hst hlt
  refine ⟨by rw [h₁], by rw [h₁]; simp [hrc], by rw [h₁]; simp [hrc], ?_⟩
  intro t₁ ht₁
  rw [h₁] at ht₁
  have ht₁ := Option.some.inj ht₁
  have hrc₁ : t₁.retryCount = some 1 := by rw [← ht₁, hrc]
  have h₂ := simulateAgentEnd_failed_eq g
    { t₁ with status := "in-progress", sessionKey := some k } es₂ now₂ rfl
    (by simp [hrc₁, hmr])
  exact ⟨by rw [h₂], by rw [h₂]; rfl⟩

theorem supervisor_default_max_retries_witness :
    ((none : Option Nat) = none ∧ ("in-progress" : String) = "in-progress"
      ∧ ((some 0 : Option Nat).getD 0 = 0))
    ∧ (simulateAgentEnd ⟨"goal_1", none⟩
        (some ⟨"task_1", "in-progress", some "sk:1", some 0, none, 0⟩) (some true) 1).result
      = "retried"
    ∧ ∀ t₁, (simulateAgentEnd ⟨"goal_1", none⟩
        (some ⟨"task_1", "in-progress", some "sk:1", some 0, none, 0⟩) (some true) 1).task
          = some t₁ →
        (simulateAgentEnd ⟨"goal_1", none⟩
            (some { t₁ with status := "in-progress", sessionKey := some "sk:2" })
            (some true) 2).result = "failed" := by
  have h := supervisor_default_max_retries ⟨"goal_1", none⟩
    ⟨"task_1", "in-progress", some "sk:1", some 0, none, 0⟩ (some true) (some true)
    "sk:2" 1 2 rfl rfl (by decide)
  exact ⟨⟨rfl, rfl, by decide⟩, h.1, fun t₁ ht₁ => (h.2.2.2 t₁ ht₁).1⟩

/-- C5: an agent-session-ended event for a task that is not `in-progress` is
a no-op: a `done` task yields result `completed`, any other non-in-progress
status yields `no-action`; in both cases the task is returned unchanged and
no event is emitted. -/
theorem supervisor_non_in_progress_noop (g : SGoal) (t : STask) (es : Option Bool) (now : Nat)
    (hst : t.status ≠ "in-progress") :
    simulateAgentEnd g (some t) es now =
      ⟨if t.status = "done" then "completed" else "no-action", some t, []⟩ := by
  by_cases hd : t.status = "done"
  · simp only [simulateAgentEnd, hd, if_pos]
  · simp only [simulateAgentEnd, if_neg hd, if_neg hst]

theorem supervisor_non_in_progress_noop_witness :
    (("done" : String) ≠ "in-progress" ∧ ("blocked" : String) ≠ "in-progress")
    ∧ simulateAgentEnd ⟨"goal_1", none⟩
        (some ⟨"task_1", "done", some "sk:3", none, none, 0⟩) (some true) 5
      = ⟨"completed", some ⟨"task_1", "done", some "sk:3", none, none, 0⟩, []⟩
    ∧ simulateAgentEnd ⟨"goal_1", none⟩
        (some ⟨"task_2", "blocked", none, none, none, 0⟩) (some false) 5
      = ⟨"no-action", some ⟨"task_2", "blocked", none, none, none, 0⟩, []⟩ := by
  refine ⟨⟨by decide, by decide⟩, ?_, ?_⟩
  · exact supervisor_non_in_progress_noop ⟨"goal_1", none⟩
      ⟨"task_1", "done", some "sk:3", none, none, 0⟩ (some true) 5 (by decide)
  · exact supervisor_non_in_progress_noop ⟨"goal_1", none⟩
      ⟨"task_2", "blocked", none, none, none, 0⟩ (some false) 5 (by decide)

/-- C6: `sessions.killForGoal` resets exactly the `in-progress` tasks —
each becomes `pending` with `sessionKey = null` and an unchanged
`retryCount` — and every other task of the goal keeps all its fields
(position by position over the goal's task list). -/
theorem kill_for_goal_resets_only_in_progress (now : Nat) (tasks : List KTask) :
    List.Forall₂
      (fun t t' =>
        (t.status = "in-progress" →
          t' = { t with status := "pending", sessionKey := none, updatedAtMs := now }
          ∧ t'.retryCount = t.retryCount)
        ∧ (t.status ≠ "in-progress" → t' = t))
      tasks (killForGoalResetTasks now tasks) := by
  induction tasks with
  | nil => exact List.Forall₂.nil
  | cons t ts ih =>
    refine List.Forall₂.cons ⟨fun h => ?_, fun h => ?_⟩ ih
    · rw [killForGoalResetTask, if_pos h]
      exact ⟨rfl, rfl⟩
    · rw [killForGoalResetTask, if_neg h]

/-- C8: every PM handler, for every input (absent or malformed params
included) and every collaborator behaviour (`store.load`, `store.save`,
`getPmSession`, `getPmSkillContext`, `parseTasksFromPlan`, `detectPlan`
may all throw), delivers its outcome through `respond` — no path lets an
exception escape, because every collaborator call sits in the handler's
`try`, whose `catch` responds `(false, null, err.message)`. -/
theorem pm_handlers_always_respond (c : Collabs) (now : Nat) (d : Doc) :
    (∀ p, (pmChat c now p d).out.isResponse = true)
    ∧ (∀ p, (pmGetConfig c p d).out.isResponse = true)
    ∧ (∀ p, (pmSetConfig c now p d).out.isResponse = true)
    ∧ (∀ p, (pmGetAgent c p d).out.isResponse = true)
    ∧ (∀ p, (pmGetHistory c p d).out.isResponse = true)
    ∧ (∀ p, (pmClearHistory c now p d).out.isResponse = true)
    ∧ (∀ p, (pmSaveResponse c now p d).out.isResponse = true)
    ∧ (∀ p, (pmCreateTasksFromPlan c now p d).out.isResponse = true)
    ∧ (∀ p, (pmRegenerateTasks c now p d).out.isResponse = true)
    ∧ (∀ p, (pmDetectPlan c p d).out.isResponse = true) := by
  refine ⟨fun p => ?_, fun p => ?_, fun p => ?_, fun p => ?_, fun p => ?_,
    fun p => ?_, fun p => ?_, fun p => ?_, fun p => ?_, fun p => ?_⟩
  · unfold pmChat
    dsimp only
    repeat' split
    all_goals rfl
  · unfold pmGetConfig
    dsimp only
    repeat' split
    all_goals rfl
  · unfold pmSetConfig
    dsimp only
    repeat' split
    all_goals rfl
  · unfold pmGetAgent
    dsimp only
    repeat' split
    all_goals rfl
  · unfold pmGetHistory
    dsimp only
    repeat' split
    all_goals rfl
  · unfold pmClearHistory
    dsimp only
    repeat' split
    all_goals rfl
  · unfold pmSaveResponse
    dsimp only
    repeat' split
    all_goals rfl
  · unfold pmCreateTasksFromPlan
    dsimp only
    repeat' split
    all_goals rfl
  · unfold pmRegenerateTasks
    dsimp only
    repeat' split
    all_goals rfl
  · unfold pmDetectPlan
    dsimp only
    repeat' split
    all_goals rfl

/-- C7 counterexample: `pm.regenerateTasks` on a goal with existing tasks
but no plan content responds `ok = false` ("No plan content found to
regenerate tasks from") yet has already removed the goal's tasks and saved
the document: the store document after the call differs from the one
before and one save was performed. -/
theorem pm_regen_err_mutates_cex :
    (pmRegenerateTasks c7Collabs 5 (some ⟨some "goal_1", none⟩) c7Doc).out
      = HOut.respondedErr "No plan content found to regenerate tasks from"
    ∧ (pmRegenerateTasks c7Collabs 5 (some ⟨some "goal_1", none⟩) c7Doc).doc ≠ c7Doc
    ∧ (pmRegenerateTasks c7Collabs 5 (some ⟨some "goal_1", none⟩) c7Doc).saves = 1 := by
  refine ⟨rfl, ?_, rfl⟩
  decide

/-- C7 amended: with non-throwing collaborators, every PM handler that
responds `ok = false` leaves the store document unchanged and performs no
save — except `pm.regenerateTasks`, whose absent-plan-content and
no-tasks-extracted error paths first save the document with the goal's
existing tasks removed (and their sessionIndex entries pruned). -/
theorem pm_validation_errors_no_mutation_amended (c : Collabs) (hc : NoThrow c) (now : Nat) :
    (∀ p d e, (pmChat c now p d).out = .respondedErr e →
      (pmChat c now p d).doc = d ∧ (pmChat c now p d).saves = 0)
    ∧ (∀ p d e, (pmGetConfig c p d).out = .respondedErr e →
      (pmGetConfig c p d).doc = d ∧ (pmGetConfig c p d).saves = 0)
    ∧ (∀ p d e, (pmSetConfig c now p d).out = .respondedErr e →
      (pmSetConfig c now p d).doc = d ∧ (pmSetConfig c now p d).saves = 0)
    ∧ (∀ p d e, (pmGetAgent c p d).out = .respondedErr e →
      (pmGetAgent c p d).doc = d ∧ (pmGetAgent c p d).saves = 0)
    ∧ (∀ p d e, (pmGetHistory c p d).out = .respondedErr e →
      (pmGetHistory c p d).doc = d ∧ (pmGetHistory c p d).saves = 0)
    ∧ (∀ p d e, (pmClearHistory c now p d).out = .respondedErr e →
      (pmClearHistory c now p d).doc = d ∧ (pmClearHistory c now p d).saves = 0)
    ∧ (∀ p d e, (pmSaveResponse c now p d).out = .respondedErr e →
      (pmSaveResponse c now p d).doc = d ∧ (pmSaveResponse c now p d).saves = 0)
    ∧ (∀ p d e, (pmCreateTasksFromPlan c now p d).out = .respondedErr e →
      (pmCreateTasksFromPlan c now p d).doc = d ∧ (pmCreateTasksFromPlan c now p d).saves = 0)
    ∧ (∀ p d e, (pmRegenerateTasks c now p d).out = .respondedErr e →
      ((pmRegenerateTasks c now p d).doc = d ∧ (pmRegenerateTasks c now p d).saves = 0)
      ∨ ((pmRegenerateTasks c now p d).doc
            = clearGoalTasks d ((p.getD ⟨none, none⟩).goalId.getD "")
          ∧ (pmRegenerateTasks c now p d).saves = 1))
    ∧ (∀ p d e, (pmDetectPlan c p d).out = .respondedErr e →
      (pmDetectPlan c p d).doc = d ∧ (pmDetectPlan c p d).saves = 0) := by
  refine ⟨fun p d e => ?_, fun p d e => ?_, fun p d e => ?_, fun p d e => ?_, fun p d e => ?_,
    fun p d e => ?_, fun p d e => ?_, fun p d e => ?_, fun p d e => ?_, fun p d e => ?_⟩
  all_goals
    first
      | unfold pmChat | unfold pmGetConfig | unfold pmSetConfig | unfold pmGetAgent
      | unfold pmGetHistory | unfold pmClearHistory | unfold pmSaveResponse
      | unfold pmCreateTasksFromPlan | unfold pmRegenerateTasks | unfold pmDetectPlan
  all_goals dsimp only
  all_goals try rw [hc.load]
  all_goals try rw [hc.save]
  all_goals repeat' split
  all_goals intro h
  all_goals first
    | exact ⟨rfl, rfl⟩
    | exact Or.inl ⟨rfl, rfl⟩
    | exact Or.inr ⟨rfl, rfl⟩
    | exact HOut.noConfusion h
    | exact absurd (by assumption) (hc.pmSession _ _ _)
    | exact absurd (by assumption) (hc.skill _)
    | exact absurd (by assumption) (hc.detect _ _)
    | exact absurd (by assumption) (hc.parse _ _)
    | (rename_i heq
       repeat' split at heq
       all_goals first
         | exact absurd heq (hc.pmSession _ _ _)
         | exact Except.noConfusion heq)

theorem pm_validation_errors_no_mutation_amended_witness :
    (pmChat c7Collabs 0 none c7Doc).out = HOut.respondedErr "condoId is required"
    ∧ (pmChat c7Collabs 0 none c7Doc).doc = c7Doc
    ∧ (pmChat c7Collabs 0 none c7Doc).saves = 0 := by
  have hnt : NoThrow c7Collabs :=
    ⟨rfl, rfl, fun d o e => by simp [c7Collabs], fun e => by simp [c7Collabs],
     fun s e => by simp [c7Collabs], fun s e => by simp [c7Collabs]⟩
  have h := (pm_validation_errors_no_mutation_amended c7Collabs hnt 0).1 none c7Doc
    "condoId is required" rfl
  exact ⟨rfl, h.1, h.2⟩

/-- Membership in the in-place goal update: an element of the updated list
is an untouched original or the image of an original. -/
theorem mem_replaceFirstGoal {gs : List PGoal} {gid : String} {f : PGoal → PGoal} {g' : PGoal}
    (h : g' ∈ replaceFirstGoal gs gid f) : g' ∈ gs ∨ ∃ g, g ∈ gs ∧ g' = f g := by
  induction gs with
  | nil => simp [replaceFirstGoal] at h
  | cons a as ih =>
    rw [replaceFirstGoal] at h
    split at h
    · rcases List.mem_cons.mp h with h1 | h1
      · exact Or.inr ⟨a, List.mem_cons_self a as, h1⟩
      · exact Or.inl (List.mem_cons_of_mem a h1)
    · rcases List.mem_cons.mp h with h1 | h1
      · exact Or.inl (by simp [h1])
      · rcases ih h1 with h2 | ⟨g, hg, hgf⟩
        · exact Or.inl (List.mem_cons_of_mem a h2)
        · exact Or.inr ⟨g, List.mem_cons_of_mem a hg, hgf⟩

/-- Any task found after the task-removal step of `pm.regenerateTasks`
already existed in the original document. -/
theorem mem_tasks_clearGoalTasks {d : Doc} {gid : String} {g' : PGoal} {t : PTask}
    (hg : g' ∈ (clearGoalTasks d gid).goals) (ht : t ∈ g'.tasks) :
    ∃ g, g ∈ d.goals ∧ t ∈ g.tasks := by
  unfold clearGoalTasks at hg
  split at hg
  · rcases mem_replaceFirstGoal hg with h1 | ⟨g, hgin, rfl⟩
    · exact ⟨g', h1, ht⟩
    · simp at ht
  · exact ⟨g', hg, ht⟩

/-- Every task literal built from a parsed plan row starts `pending`, with
no session key, no dependencies and an effective retry count of 0. -/
theorem mem_newPlanTasks_initial {idSupply : Nat → String} {now : Nat}
    {pts : List ParsedTask} {t : PTask}
    (ht : t ∈ pts.enum.map (fun ip => mkPlanTask idSupply ip.1 now ip.2)) :
    t.status = "pending" ∧ t.sessionKey = none ∧ t.dependsOn = []
    ∧ t.retryCount.getD 0 = 0 := by
  rcases List.mem_map.mp ht with ⟨ip, _, rfl⟩
  exact ⟨rfl, rfl, rfl, rfl⟩

/-- C9: every task created by `pm.createTasksFromPlan` or
`pm.regenerateTasks` (any task of the resulting document that was not
already a task of some goal beforehand) starts with status `pending`,
`sessionKey = null`, an empty `dependsOn` list, and an effective
`retryCount` of 0 (the creation literal carries no `retryCount` property;
the supervisor reads the absent field as 0). -/
theorem pm_created_tasks_initial_state (c : Collabs) (now : Nat) (p : Option PlanParams)
    (d : Doc) :
    (∀ g', g' ∈ (pmCreateTasksFromPlan c now p d).doc.goals → ∀ t, t ∈ g'.tasks →
      (∃ g, g ∈ d.goals ∧ t ∈ g.tasks)
      ∨ (t.status = "pending" ∧ t.sessionKey = none ∧ t.dependsOn = []
         ∧ t.retryCount.getD 0 = 0))
    ∧ (∀ g', g' ∈ (pmRegenerateTasks c now p d).doc.goals → ∀ t, t ∈ g'.tasks →
      (∃ g, g ∈ d.goals ∧ t ∈ g.tasks)
      ∨ (t.status = "pending" ∧ t.sessionKey = none ∧ t.dependsOn = []
         ∧ t.retryCount.getD 0 = 0)) := by
  constructor
  · intro g' hg' t ht
    unfold pmCreateTasksFromPlan at hg'
    dsimp only at hg'
    repeat' split at hg'
    all_goals try exact Or.inl ⟨g', hg', ht⟩
    rcases mem_replaceFirstGoal hg' with h1 | ⟨g, hgin, rfl⟩
    · exact Or.inl ⟨g', h1, ht⟩
    · rcases List.mem_append.mp ht with h2 | h2
      · exact Or.inl ⟨g, hgin, h2⟩
      · exact Or.inr (mem_newPlanTasks_initial h2)
  · intro g' hg' t ht
    unfold pmRegenerateTasks at hg'
    dsimp only at hg'
    repeat' split at hg'
    all_goals try exact Or.inl ⟨g', hg', ht⟩
    all_goals try exact Or.inl (mem_tasks_clearGoalTasks hg' ht)
    rcases mem_replaceFirstGoal hg' with h1 | ⟨g, hgin, rfl⟩
    · exact Or.inl (mem_tasks_clearGoalTasks h1 ht)
    · rcases List.mem_append.mp ht with h2 | h2
      · exact Or.inl (mem_tasks_clearGoalTasks hgin h2)
      · exact Or.inr (mem_newPlanTasks_initial h2)

theorem pm_created_tasks_initial_state_witness :
    (⟨"goal_1", "condo_1", "G", false,
      [⟨"task_0", "write code", "", "pending", false, none, none, some "dev", none, [], "", none,
        3, 3, none⟩],
      none, some ⟨some "PLAN", none, none, none⟩, some "PLAN", 3⟩ : PGoal)
      ∈ (pmCreateTasksFromPlan c9Collabs 3 (some ⟨some "goal_1", none⟩) c9Doc).doc.goals
    ∧ ((⟨"task_0", "write code", "", "pending", false, none, none, some "dev", none, [], "", none,
        3, 3, none⟩ : PTask).status = "pending"
       ∨ True)
    ∧ ((∃ g, g ∈ c9Doc.goals
          ∧ (⟨"task_0", "write code", "", "pending", false, none, none, some "dev", none, [], "",
              none, 3, 3, none⟩ : PTask) ∈ g.tasks)
       ∨ ((⟨"task_0", "write code", "", "pending", false, none, none, some "dev", none, [], "",
            none, 3, 3, none⟩ : PTask).status = "pending"
          ∧ (⟨"task_0", "write code", "", "pending", false, none, none, some "dev", none, [], "",
              none, 3, 3, none⟩ : PTask).sessionKey = none
          ∧ (⟨"task_0", "write code", "", "pending", false, none, none, some "dev", none, [], "",
              none, 3, 3, none⟩ : PTask).dependsOn = []
          ∧ (⟨"task_0", "write code", "", "pending", false, none, none, some "dev", none, [], "",
              none, 3, 3, none⟩ : PTask).retryCount.getD 0 = 0)) := by
  refine ⟨by decide, Or.inl rfl, ?_⟩
  exact (pm_created_tasks_initial_state c9Collabs 3 (some ⟨some "goal_1", none⟩) c9Doc).1
    ⟨"goal_1", "condo_1", "G", false,
     [⟨"task_0", "write code", "", "pending", false, none, none, some "dev", none, [], "", none,
       3, 3, none⟩],
     none, some ⟨some "PLAN", none, none, none⟩, some "PLAN", 3⟩ (by decide)
    ⟨"task_0", "write code", "", "pending", false, none, none, some "dev", none, [], "", none,
     3, 3, none⟩ (by decide)

/-- The trim loop leaves at most `m` entries. -/
theorem trimFront_length_le (l : List Msg) (m : Nat) : (trimFront l m).length ≤ m := by
  induction l with
  | nil => simp [trimFront]
  | cons a as ih =>
    rw [trimFront]
    split
    · exact ih
    · rename_i h
      exact Nat.le_of_not_lt h

/-- The trim loop only removes entries from the front. -/
theorem trimFront_eq_drop (l : List Msg) (m : Nat) : ∃ k, trimFront l m = l.drop k := by
  induction l with
  | nil => exact ⟨0, rfl⟩
  | cons a as ih =>
    rw [trimFront]
    split
    · rcases ih with ⟨k, hk⟩
      exact ⟨k + 1, by simpa using hk⟩
    · exact ⟨0, rfl⟩

/-- C10: `addToHistory` appends the new entry and drops the oldest entries
until at most `DEFAULT_HISTORY_LIMIT` (100) remain, so the history it
leaves is a suffix of `old ++ [new]` of length ≤ 100; consequently the two
chat-recording handlers, `pm.chat` and `pm.saveResponse`, preserve the
bound `goal.pmChatHistory ≤ 100` across the whole document. -/
theorem pm_history_bound :
    (∀ g role content now,
      (getHist (addToHistory g role content now DEFAULT_HISTORY_LIMIT)).length
        ≤ DEFAULT_HISTORY_LIMIT
      ∧ ∃ k, getHist (addToHistory g role content now DEFAULT_HISTORY_LIMIT)
          = (getHist g ++ [Msg.mk role content now]).drop k)
    ∧ (∀ c now p d, (∀ g, g ∈ d.goals → (getHist g).length ≤ DEFAULT_HISTORY_LIMIT) →
        ∀ g', g' ∈ (pmChat c now p d).doc.goals →
          (getHist g').length ≤ DEFAULT_HISTORY_LIMIT)
    ∧ (∀ c now p d, (∀ g, g ∈ d.goals → (getHist g).length ≤ DEFAULT_HISTORY_LIMIT) →
        ∀ g', g' ∈ (pmSaveResponse c now p d).doc.goals →
          (getHist g').length ≤ DEFAULT_HISTORY_LIMIT) := by
  refine ⟨fun g role content now => ?_, ?_, ?_⟩
  · exact ⟨trimFront_length_le (getHist g ++ [Msg.mk role content now]) DEFAULT_HISTORY_LIMIT,
      trimFront_eq_drop (getHist g ++ [Msg.mk role content now]) DEFAULT_HISTORY_LIMIT⟩
  · intro c now p d hb g' hg'
    unfold pmChat at hg'
    dsimp only at hg'
    repeat' split at hg'
    all_goals try exact hb g' hg'
    all_goals
      rcases mem_replaceFirstGoal hg' with h1 | ⟨g, hgin, rfl⟩
    all_goals try exact hb g' h1
    all_goals exact trimFront_length_le _ _
  · intro c now p d hb g' hg'
    unfold pmSaveResponse at hg'
    dsimp only at hg'
    repeat' split at hg'
    all_goals try exact hb g' hg'
    all_goals
      rcases mem_replaceFirstGoal hg' with h1 | ⟨g, hgin, rfl⟩
    all_goals try exact hb g' h1
    all_goals exact trimFront_length_le _ _

theorem pm_history_bound_witness :
    (∀ g, g ∈ c10Doc.goals → (getHist g).length ≤ DEFAULT_HISTORY_LIMIT)
    ∧ (getHist (⟨"goal_1", "condo_1", "G", false, [],
        some [⟨"assistant", "hello", 4⟩], none, none, 4⟩ : PGoal)).length
      ≤ DEFAULT_HISTORY_LIMIT := by
  refine ⟨by decide, ?_⟩
  exact pm_history_bound.2.2 c10Collabs 4 (some ⟨some "goal_1", some "hello"⟩) c10Doc
    (by decide)
    ⟨"goal_1", "condo_1", "G", false, [], some [⟨"assistant", "hello", 4⟩], none, none, 4⟩
    (by decide)
